import Mathlib

/-!
Verification of the core of a URL-shortening service against its
natural-language specification.

The development shallowly embeds the relevant program components:

* Base62 codec                       (`app/core/id_generator.py`)
* Snowflake ID generator             (`app/core/id_generator.py`)
* worker-ID lease renewal iteration  (`app/core/worker_id.py`)
* Redis cache wrapper                (`app/core/redis_client.py`)
* shorten / redirect endpoints       (`app/api/endpoints.py`)
* analytics event publisher          (`app/core/analytics.py`)
* bus event consumer                 (`event-consumer/consumer.py`)

Machine integers are modelled as `Nat`/`Int` (Python integers are unbounded,
so no wrap-around modelling is needed); fallible code returns `Except`;
external effects (clock reads, Redis replies, bus publishes, ClickHouse
inserts) are passed in as explicit arguments so that every definition is an
executable function of its inputs.
-/

/-! ## Base62 codec (`app/core/id_generator.py`, lines 14-51) -/

/-- `BASE62_CHARS = "0123456789abcdefghijklmnopqrstuvwxyzABCDEFGHIJKLMNOPQRSTUVWXYZ"`. -/
def BASE62_CHARS : List Char :=
  "0123456789abcdefghijklmnopqrstuvwxyzABCDEFGHIJKLMNOPQRSTUVWXYZ".toList

/-- The `while num > 0` loop of `base62_encode`, emitting least-significant
symbols first.  The recursion is bounded by an explicit fuel argument
(`num / 62 < num` guarantees that fuel `num` suffices), which keeps the
definition structurally recursive and kernel-computable. -/
def encodeDigitsFuel : Nat → Nat → List Char
  | _, 0 => []
  | 0, _ + 1 => []
  | fuel + 1, num + 1 =>
    BASE62_CHARS.getD ((num + 1) % 62) '0' :: encodeDigitsFuel fuel ((num + 1) / 62)

/-- Digits of `num` in base 62, least significant first (empty for `0`). -/
def encodeDigits (num : Nat) : List Char :=
  encodeDigitsFuel num num

/-- `base62_encode` (`id_generator.py` lines 17-35): `0` encodes to the first
alphabet symbol, otherwise the collected digits are reversed and joined. -/
def base62_encode (num : Nat) : String :=
  if num = 0 then String.mk [BASE62_CHARS.getD 0 '0']
  else String.mk (encodeDigits num).reverse

/-- One step of the `for char in encoded` loop of `base62_decode`:
`num = num * 62 + BASE62_CHARS.index(char)`. -/
def decodeStep (num : Nat) (c : Char) : Nat :=
  num * 62 + BASE62_CHARS.indexOf c

/-- `base62_decode` (`id_generator.py` lines 38-51). -/
def base62_decode (encoded : String) : Nat :=
  encoded.toList.foldl decodeStep 0

theorem indexOf_getD_base62 : ∀ i, i < 62 → BASE62_CHARS.indexOf (BASE62_CHARS.getD i '0') = i := by
  decide

theorem encodeDigitsFuel_spec (fuel : Nat) : ∀ num acc, num ≤ fuel →
    List.foldl decodeStep acc (encodeDigitsFuel fuel num).reverse
      = acc * 62 ^ (encodeDigitsFuel fuel num).length + num := by
  induction fuel with
  | zero =>
    intro num acc h
    have hz : num = 0 := Nat.le_zero.mp h
    subst hz
    simp [encodeDigitsFuel]
  | succ fuel ih =>
    intro num acc h
    match num with
    | 0 => simp [encodeDigitsFuel]
    | m + 1 =>
      have hdiv : (m + 1) / 62 ≤ fuel := by
        have h1 : (m + 1) / 62 < m + 1 := Nat.div_lt_self (Nat.succ_pos m) (by decide)
        omega
      have hidx : BASE62_CHARS.indexOf (BASE62_CHARS.getD ((m + 1) % 62) '0') = (m + 1) % 62 :=
        indexOf_getD_base62 _ (Nat.mod_lt _ (by decide))
      have hrec := ih ((m + 1) / 62) acc hdiv
      simp only [encodeDigitsFuel, List.reverse_cons, List.foldl_append, List.length_cons]
      rw [hrec]
      simp only [List.foldl_cons, List.foldl_nil, decodeStep, hidx]
      have hmod := Nat.div_add_mod (m + 1) 62
      rw [pow_succ]
      ring_nf
      ring_nf at hmod ⊢
      omega

/-- Claim C5: for every natural number `n`,
`base62_decode (base62_encode n) = n` (round-trip law B1). -/
theorem base62_decode_encode (n : Nat) : base62_decode (base62_encode n) = n := by
  by_cases h : n = 0
  · subst h; decide
  · unfold base62_encode
    rw [if_neg h]
    show List.foldl decodeStep 0 (encodeDigits n).reverse = n
    have := encodeDigitsFuel_spec n n 0 le_rfl
    simpa [encodeDigits] using this

/-! ## Snowflake ID generator (`app/core/id_generator.py`, lines 54-178)

The generator's only side effects are clock reads.  `generate` therefore
takes the value `t` returned by the first `_current_timestamp()` call and
the value `tw` returned by `_wait_next_millisecond` (used only on sequence
overflow).  The `while timestamp <= last_timestamp` loop in
`_wait_next_millisecond` exits only with a strictly larger timestamp, so
theorems assume `last_timestamp < tw` for the waited reading. -/

/-- `TIMESTAMP_BITS = 41` (class constant). -/
def TIMESTAMP_BITS : Nat := 41

/-- `WORKER_ID_BITS = 10` (class constant). -/
def WORKER_ID_BITS : Nat := 10

/-- `SEQUENCE_BITS = 12` (class constant). -/
def SEQUENCE_BITS : Nat := 12

/-- `MAX_WORKER_ID = (1 << WORKER_ID_BITS) - 1 = 1023`. -/
def MAX_WORKER_ID : Nat := (1 <<< WORKER_ID_BITS) - 1

/-- `MAX_SEQUENCE = (1 << SEQUENCE_BITS) - 1 = 4095`. -/
def MAX_SEQUENCE : Nat := (1 <<< SEQUENCE_BITS) - 1

/-- `EPOCH = 1704067200000` (2024-01-01T00:00:00Z in milliseconds). -/
def EPOCH : Nat := 1704067200000

/-- Mutable state of one `SnowflakeIDGenerator` instance:
`worker_id`, `sequence`, `last_timestamp` (initialised to `-1`). -/
structure GenState where
  worker_id : Nat
  sequence : Nat
  last_timestamp : Int
deriving DecidableEq, Repr

/-- The constructor `SnowflakeIDGenerator.__init__`: rejects
`worker_id ∉ [0, 1023]`, otherwise starts with `sequence = 0` and
`last_timestamp = -1`. -/
def mkGenerator (worker_id : Nat) : Except String GenState :=
  if worker_id ≤ MAX_WORKER_ID then
    Except.ok { worker_id := worker_id, sequence := 0, last_timestamp := -1 }
  else
    Except.error "Worker ID must be between 0 and 1023"

/-- The ID assembly expression of `generate` (lines 131-135):
`((timestamp - EPOCH) << 22) | (worker_id << 12) | sequence`. -/
def snowflakeId (timestamp worker_id sequence : Nat) : Nat :=
  ((timestamp - EPOCH) <<< (WORKER_ID_BITS + SEQUENCE_BITS)) |||
    (worker_id <<< SEQUENCE_BITS) ||| sequence

/-- `SnowflakeIDGenerator.generate` (lines 95-137).  `t` is the current
clock reading, `tw` the reading obtained by `_wait_next_millisecond` in the
sequence-overflow branch. -/
def generate (s : GenState) (t tw : Nat) : Except String (Nat × GenState) :=
  if (t : Int) < s.last_timestamp then
    Except.error "Clock moved backwards. Refusing to generate ID"
  else if (t : Int) = s.last_timestamp then
    if (s.sequence + 1) &&& MAX_SEQUENCE = 0 then
      Except.ok (snowflakeId tw s.worker_id ((s.sequence + 1) &&& MAX_SEQUENCE),
        { s with sequence := (s.sequence + 1) &&& MAX_SEQUENCE,
                 last_timestamp := (tw : Int) })
    else
      Except.ok (snowflakeId t s.worker_id ((s.sequence + 1) &&& MAX_SEQUENCE),
        { s with sequence := (s.sequence + 1) &&& MAX_SEQUENCE,
                 last_timestamp := (t : Int) })
  else
    Except.ok (snowflakeId t s.worker_id 0,
      { s with sequence := 0, last_timestamp := (t : Int) })

/-- `SnowflakeIDGenerator.generate_short_code` (lines 139-146): a fresh
`generate()` call whose result is Base62-encoded. -/
def generate_short_code (s : GenState) (t tw : Nat) : Except String (String × GenState) :=
  match generate s t tw with
  | Except.ok (id, s') => Except.ok (base62_encode id, s')
  | Except.error e => Except.error e

/-- A sequence of `generate()` calls on one instance; each element of the
trace supplies the two clock readings of one call.  Stops at the first
failure. -/
def runGen (s : GenState) : List (Nat × Nat) → Except String (List Nat)
  | [] => Except.ok []
  | (t, tw) :: rest =>
    match generate s t tw with
    | Except.error e => Except.error e
    | Except.ok (id, s') =>
      match runGen s' rest with
      | Except.error e => Except.error e
      | Except.ok ids => Except.ok (id :: ids)

/-- Well-formed clock trace: every reading is at or after the custom epoch,
and every waited reading is strictly later than the previous timestamp
(the exit condition of `_wait_next_millisecond`).  Evaluated along the
states the generator actually reaches. -/
def traceOK (s : GenState) : List (Nat × Nat) → Bool
  | [] => true
  | (t, tw) :: rest =>
    decide (EPOCH ≤ t) && decide (s.last_timestamp < (tw : Int)) &&
      (match generate s t tw with
       | Except.ok (_, s') => traceOK s' rest
       | Except.error _ => true)

theorem snowflakeId_eq_linear (ts w seq : Nat) (hw : w ≤ MAX_WORKER_ID) (hs : seq ≤ MAX_SEQUENCE) :
    snowflakeId ts w seq = (ts - EPOCH) * 2 ^ 22 + w * 2 ^ 12 + seq := by
  have hw' : w ≤ 1023 := by simpa [MAX_WORKER_ID] using hw
  have hs' : seq ≤ 4095 := by simpa [MAX_SEQUENCE] using hs
  have h1 : (w <<< 12) ||| seq = w * 2 ^ 12 + seq := by
    rw [Nat.shiftLeft_eq, Nat.mul_comm]
    exact (Nat.mul_add_lt_is_or (by omega) w).symm
  have h2 : ((ts - EPOCH) <<< 22) ||| (w * 2 ^ 12 + seq)
      = (ts - EPOCH) * 2 ^ 22 + (w * 2 ^ 12 + seq) := by
    rw [Nat.shiftLeft_eq, Nat.mul_comm]
    refine (Nat.mul_add_lt_is_or ?_ (ts - EPOCH)).symm
    have : (2 : Nat) ^ 12 = 4096 := by norm_num
    have : (2 : Nat) ^ 22 = 4194304 := by norm_num
    omega
  show ((ts - EPOCH) <<< (WORKER_ID_BITS + SEQUENCE_BITS)) |||
      (w <<< SEQUENCE_BITS) ||| seq = _
  rw [Nat.or_assoc]
  show ((ts - EPOCH) <<< 22) ||| ((w <<< 12) ||| seq) = _
  rw [h1, h2, Nat.add_assoc]

theorem mask_MAX_SEQUENCE (x : Nat) : x &&& MAX_SEQUENCE = x % 4096 := by
  have := Nat.and_pow_two_sub_one_eq_mod x 12
  simpa [MAX_SEQUENCE] using this


theorem generate_step (s s' : GenState) (t tw id : Nat)
    (hw : s.worker_id ≤ MAX_WORKER_ID) (hseq : s.sequence ≤ MAX_SEQUENCE)
    (hwait : s.last_timestamp < (tw : Int))
    (hE : EPOCH ≤ t)
    (hgen : generate s t tw = Except.ok (id, s')) :
    s'.worker_id = s.worker_id ∧ s'.sequence ≤ MAX_SEQUENCE ∧
      (∃ ts' : Nat, s'.last_timestamp = (ts' : Int) ∧ EPOCH ≤ ts' ∧
        id = snowflakeId ts' s'.worker_id s'.sequence) ∧
      (∀ ts : Nat, s.last_timestamp = (ts : Int) → EPOCH ≤ ts →
        snowflakeId ts s.worker_id s.sequence < id) := by
  have hMS : MAX_SEQUENCE = 4095 := rfl
  have hMW : MAX_WORKER_ID = 1023 := rfl
  have e22 : (2 : Nat) ^ 22 = 4194304 := by norm_num
  have e12 : (2 : Nat) ^ 12 = 4096 := by norm_num
  have hw' : s.worker_id ≤ 1023 := hMW ▸ hw
  have hseq' : s.sequence ≤ 4095 := hMS ▸ hseq
  by_cases hlt : (t : Int) < s.last_timestamp
  · rw [generate, if_pos hlt] at hgen
    exact absurd hgen (by simp)
  by_cases heq : (t : Int) = s.last_timestamp
  · by_cases hz : (s.sequence + 1) &&& MAX_SEQUENCE = 0
    · -- sequence overflow: wait for the next millisecond
      rw [generate, if_neg hlt, if_pos heq, if_pos hz] at hgen
      simp only [Except.ok.injEq, Prod.mk.injEq] at hgen
      obtain ⟨hid, hs'⟩ := hgen
      subst hs'
      have htw : t < tw := by
        have h := heq ▸ hwait
        exact_mod_cast h
      refine ⟨rfl, ?_, ⟨tw, rfl, by omega, hid.symm⟩, ?_⟩
      · show (s.sequence + 1) &&& MAX_SEQUENCE ≤ MAX_SEQUENCE
        rw [hz]
        exact Nat.zero_le _
      · intro ts hts hEts
        have hteq : t = ts := by
          have h := heq.trans hts
          exact_mod_cast h
        have hlin1 := snowflakeId_eq_linear ts s.worker_id s.sequence hw hseq
        have hlin2 := snowflakeId_eq_linear tw s.worker_id ((s.sequence + 1) &&& MAX_SEQUENCE)
          hw (by rw [hz]; exact Nat.zero_le _)
        rw [← hid, hlin1, hlin2, hz, e22, e12]
        omega
    · -- same millisecond, sequence incremented without overflow
      rw [generate, if_neg hlt, if_pos heq, if_neg hz] at hgen
      simp only [Except.ok.injEq, Prod.mk.injEq] at hgen
      obtain ⟨hid, hs'⟩ := hgen
      subst hs'
      have hmask : (s.sequence + 1) &&& MAX_SEQUENCE = (s.sequence + 1) % 4096 :=
        mask_MAX_SEQUENCE _
      have hlow : s.sequence < 4095 := by
        rcases Nat.lt_or_ge s.sequence 4095 with h | h
        · exact h
        · exfalso
          have h4 : s.sequence = 4095 := le_antisymm hseq' h
          rw [hmask, h4] at hz
          simp at hz
      have hmask' : (s.sequence + 1) &&& MAX_SEQUENCE = s.sequence + 1 := by
        rw [hmask]
        omega
      have hEt : EPOCH ≤ t := hE
      refine ⟨rfl, ?_, ⟨t, rfl, hEt, hid.symm⟩, ?_⟩
      · show (s.sequence + 1) &&& MAX_SEQUENCE ≤ MAX_SEQUENCE
        rw [hmask', hMS]
        omega
      · intro ts hts hEts
        have hteq : t = ts := by
          have h := heq.trans hts
          exact_mod_cast h
        subst hteq
        have hlin1 := snowflakeId_eq_linear t s.worker_id s.sequence hw hseq
        have hlin2 := snowflakeId_eq_linear t s.worker_id ((s.sequence + 1) &&& MAX_SEQUENCE)
          hw (by rw [hmask', hMS]; omega)
        rw [← hid, hlin1, hlin2, hmask', e22, e12]
        omega
  · -- fresh millisecond: sequence reset to 0
    rw [generate, if_neg hlt, if_neg heq] at hgen
    simp only [Except.ok.injEq, Prod.mk.injEq] at hgen
    obtain ⟨hid, hs'⟩ := hgen
    subst hs'
    refine ⟨rfl, ?_, ⟨t, rfl, hE, hid.symm⟩, ?_⟩
    · show (0 : Nat) ≤ MAX_SEQUENCE
      exact Nat.zero_le _
    · intro ts hts hEts
      have htgt : ts < t := by
        rw [hts] at hlt heq
        have h : (ts : Int) < (t : Int) := by omega
        exact_mod_cast h
      have hlin1 := snowflakeId_eq_linear ts s.worker_id s.sequence hw hseq
      have hlin2 := snowflakeId_eq_linear t s.worker_id 0 hw (Nat.zero_le _)
      rw [← hid, hlin1, hlin2, e22, e12]
      omega


theorem runGen_chain (trace : List (Nat × Nat)) :
    ∀ (s : GenState) (ids : List Nat) (ts : Nat),
      s.worker_id ≤ MAX_WORKER_ID → s.sequence ≤ MAX_SEQUENCE →
      s.last_timestamp = (ts : Int) → EPOCH ≤ ts →
      traceOK s trace = true →
      runGen s trace = Except.ok ids →
      List.Chain' (· < ·) (snowflakeId ts s.worker_id s.sequence :: ids) := by
  induction trace with
  | nil =>
    intro s ids ts _ _ _ _ _ hrun
    simp only [runGen, Except.ok.injEq] at hrun
    subst hrun
    exact List.chain'_singleton _
  | cons p rest ih =>
    obtain ⟨t, tw⟩ := p
    intro s ids ts hw hseq hts hEts htrace hrun
    simp only [traceOK, Bool.and_eq_true, decide_eq_true_eq] at htrace
    obtain ⟨⟨hE, hwait⟩, hrest⟩ := htrace
    cases hg : generate s t tw with
    | error e =>
      simp only [runGen, hg] at hrun
      exact absurd hrun (by simp)
    | ok r =>
      obtain ⟨id, s₁⟩ := r
      simp only [runGen, hg] at hrun
      cases hr : runGen s₁ rest with
      | error e =>
        simp only [hr] at hrun
        exact absurd hrun (by simp)
      | ok ids₁ =>
        simp only [hr, Except.ok.injEq] at hrun
        subst hrun
        simp only [hg] at hrest
        obtain ⟨hw₁, hseq₁, ⟨ts₁, hts₁, hEts₁, hid⟩, hmono⟩ :=
          generate_step s s₁ t tw id hw hseq hwait hE hg
        have hchain := ih s₁ ids₁ ts₁ (by rw [hw₁]; exact hw) hseq₁ hts₁ hEts₁ hrest hr
        rw [← hid] at hchain
        exact List.chain'_cons.mpr ⟨hmono ts hts hEts, hchain⟩

/-- Claim C6: for any sequence of successful `generate()` calls on one
generator instance — with the clock never regressing (a regressed reading
makes the call fail, so `runGen` would not return `ok`), readings at or
after the custom epoch, and `_wait_next_millisecond` honouring its exit
condition `tw > last_timestamp` (both recorded in `traceOK`) — the returned
IDs are strictly increasing. -/
theorem generate_stream_strictMono (worker_id : Nat) (g : GenState)
    (trace : List (Nat × Nat)) (ids : List Nat)
    (hmk : mkGenerator worker_id = Except.ok g)
    (htrace : traceOK g trace = true)
    (hrun : runGen g trace = Except.ok ids) :
    List.Chain' (· < ·) ids := by
  unfold mkGenerator at hmk
  by_cases hwid : worker_id ≤ MAX_WORKER_ID
  · rw [if_pos hwid] at hmk
    simp only [Except.ok.injEq] at hmk
    subst hmk
    cases trace with
    | nil =>
      simp only [runGen, Except.ok.injEq] at hrun
      subst hrun
      exact List.chain'_nil
    | cons p rest =>
      obtain ⟨t, tw⟩ := p
      simp only [traceOK, Bool.and_eq_true, decide_eq_true_eq] at htrace
      obtain ⟨⟨hE, _⟩, hrest⟩ := htrace
      have hg : generate { worker_id := worker_id, sequence := 0, last_timestamp := -1 } t tw =
          Except.ok (snowflakeId t worker_id 0,
            { worker_id := worker_id, sequence := 0, last_timestamp := (t : Int) }) := by
        have h1 : ¬((t : Int) < (-1 : Int)) := by omega
        have h2 : ¬((t : Int) = (-1 : Int)) := by omega
        simp [generate, h1, h2]
      simp only [runGen, hg] at hrun
      simp only [hg] at hrest
      cases hr : runGen { worker_id := worker_id, sequence := 0, last_timestamp := (t : Int) } rest with
      | error e =>
        simp only [hr] at hrun
        exact absurd hrun (by simp)
      | ok ids₁ =>
        simp only [hr, Except.ok.injEq] at hrun
        subst hrun
        exact runGen_chain rest
          { worker_id := worker_id, sequence := 0, last_timestamp := (t : Int) }
          ids₁ t hwid (Nat.zero_le _) rfl hE hrest hr
  · rw [if_neg hwid] at hmk
    exact absurd hmk (by simp)

/-- Witness for claim C6's theorem: worker 1, two calls in the same
millisecond `EPOCH`, producing IDs `4096 < 4097`. -/
theorem generate_stream_strictMono_witness :
    mkGenerator 1 = Except.ok (GenState.mk 1 0 (-1)) ∧
    traceOK (GenState.mk 1 0 (-1)) [(EPOCH, EPOCH + 1), (EPOCH, EPOCH + 1)] = true ∧
    runGen (GenState.mk 1 0 (-1)) [(EPOCH, EPOCH + 1), (EPOCH, EPOCH + 1)]
      = Except.ok [4096, 4097] ∧
    List.Chain' (· < ·) [4096, 4097] :=
  ⟨rfl, rfl, rfl,
    generate_stream_strictMono 1 (GenState.mk 1 0 (-1))
      [(EPOCH, EPOCH + 1), (EPOCH, EPOCH + 1)] [4096, 4097] rfl rfl rfl⟩

/-! ## Shorten endpoint (`app/api/endpoints.py`, lines 25-75) -/

/-- The mapping record (`app/db/models.py`): `ShortURL(snowflake_id,
original_url, short_code)`; `created_at` is set by the database default and
plays no role in the claims. -/
structure ShortURL where
  snowflake_id : Nat
  original_url : String
  short_code : String
deriving DecidableEq, Repr

/-- `create_short_url` (`endpoints.py` lines 46-56), ID-issuance part.  The
endpoint calls `id_generator.generate()` to obtain `snowflake_id` (line 48)
and then calls `id_generator.generate_short_code()` (line 49) — which runs
a second `generate()` — to obtain `short_code`; the record built from the
two values is stored and returned.  `t1, tw1` and `t2, tw2` are the clock
readings observed by the two `generate()` calls. -/
def create_short_url (g : GenState) (url : String) (t1 tw1 t2 tw2 : Nat) :
    Except String (ShortURL × GenState) :=
  match generate g t1 tw1 with
  | Except.error e => Except.error e
  | Except.ok (snowflake_id, g1) =>
    match generate_short_code g1 t2 tw2 with
    | Except.error e => Except.error e
    | Except.ok (short_code, g2) =>
      Except.ok ({ snowflake_id := snowflake_id, original_url := url,
                   short_code := short_code }, g2)

/-- Claim C1 is violated by the code: on a successful `shorten` call the
stored record has `short_code = Base62` of a SECOND freshly generated ID,
not of the stored `snowflake_id`.  Concrete run: worker 0, fresh generator,
clock frozen at `EPOCH` for both internal `generate()` calls — the record
stores `snowflake_id = 0` but `short_code = "1"`, while
`Base62(0) = "0"`. -/
theorem create_short_url_code_mismatch :
    (create_short_url (GenState.mk 0 0 (-1)) "https://example.com/a"
        EPOCH (EPOCH + 1) EPOCH (EPOCH + 1)).map
        (fun p => (p.1.short_code, base62_encode p.1.snowflake_id))
      = Except.ok ("1", "0") := by
  rfl

/-! ## Redis cache wrapper (`app/core/redis_client.py`, lines 50-122)

The cache is modelled as an association list of `(key, value, ttl)`
entries; `SETEX` replaces any entry with the same key. -/

/-- `DEFAULT_TTL = 86400` (24 hours in seconds). -/
def DEFAULT_TTL : Nat := 86400

/-- `RedisCache._make_key`: `"short_url:" + short_code` (the class constant
`KEY_PREFIX = "short_url:"` is inlined here). -/
def make_key (short_code : String) : String := "short_url:" ++ short_code

/-- Redis string store with per-key TTLs. -/
structure Cache where
  entries : List (String × String × Nat)
deriving DecidableEq, Repr

/-- First value-and-TTL stored under `key`, if any. -/
def cacheFind : List (String × String × Nat) → String → Option (String × Nat)
  | [], _ => none
  | (k, v, ttl) :: rest, key => if k = key then some (v, ttl) else cacheFind rest key

/-- The Redis `SETEX key ttl value` primitive: store `value` under `key`
with time-to-live `ttl`, replacing any previous entry. -/
def setex (c : Cache) (key : String) (ttl : Nat) (value : String) : Cache :=
  { entries := (key, value, ttl) :: c.entries.filter (fun e => e.1 != key) }

/-- `RedisCache.get` (`redis_client.py` lines 69-81). -/
def cache_get (c : Cache) (short_code : String) : Option String :=
  (cacheFind c.entries (make_key short_code)).map Prod.fst

/-- `RedisCache.set` (`redis_client.py` lines 83-99).  The Python body runs
`ttl = ttl or self.DEFAULT_TTL`: both `None` and `0` are falsy, so both are
replaced by `DEFAULT_TTL` before the `SETEX`. -/
def cache_set (c : Cache) (short_code original_url : String) (ttl : Option Nat) : Cache :=
  let key := make_key short_code
  let t := match ttl with
    | none => DEFAULT_TTL
    | some v => if v = 0 then DEFAULT_TTL else v
  setex c key t original_url

/-- Claim C9: calling `RedisCache.set` with an explicit `ttl` of `0` stores
the entry with the default TTL of 86400 seconds rather than TTL `0`,
because the `ttl` argument is replaced by the default whenever it is
falsy. -/
theorem cache_set_zero_ttl_uses_default (c : Cache) (short_code original_url : String) :
    cacheFind (cache_set c short_code original_url (some 0)).entries (make_key short_code)
      = some (original_url, 86400) := by
  simp [cache_set, setex, cacheFind, DEFAULT_TTL]

/-! ## Redirect endpoint (`app/api/endpoints.py`, lines 102-163)

The relational store is modelled as an association list of
`(short_code, original_url)` rows; the cache backfill at line 154 is
`await cache.set(short_code, original_url)` with no surrounding
`try`/`except` (nor is there one inside `RedisCache.set`), so a failing
`SETEX` is modelled by the flag `set_fails` and raises out of the
handler. -/

/-- First `original_url` of a row `WHERE short_code = ?`, if any
(the `select ... where` query at lines 144-146). -/
def dbFind : List (String × String) → String → Option String
  | [], _ => none
  | (code, url) :: rest, key => if code = key then some url else dbFind rest key

/-- Error outcomes of the redirect handler. -/
inductive HttpError
  | notFound    -- `HTTPException(status_code=404, detail="Short URL not found")`
  | cacheError  -- an exception escaping the un-guarded cache backfill write
deriving DecidableEq, Repr

/-- Where the URL was resolved from. -/
inductive Source
  | cache
  | db
deriving DecidableEq, Repr

/-- `redirect_to_url` (`endpoints.py` lines 102-163), resolution part:
cache-first lookup, database fallback, 404 on absence, cache backfill,
`301` redirect.  On success the result carries the HTTP status, the
`Location` URL, the source tier, and the cache state after the request.
`set_fails = true` makes the backfill `SETEX` raise. -/
def redirect_to_url (c : Cache) (db : List (String × String)) (set_fails : Bool)
    (short_code : String) : Except HttpError (Nat × String × Source × Cache) :=
  match cache_get c short_code with
  | some original_url => Except.ok (301, original_url, Source.cache, c)
  | none =>
    match dbFind db short_code with
    | none => Except.error HttpError.notFound
    | some original_url =>
      if set_fails then Except.error HttpError.cacheError
      else Except.ok (301, original_url, Source.db, cache_set c short_code original_url none)

theorem cache_get_after_set (c : Cache) (short_code url : String) (ttl : Option Nat) :
    cache_get (cache_set c short_code url ttl) short_code = some url := by
  simp only [cache_get, cache_set, setex]
  simp [cacheFind]

/-- Claim C7: for every code absent from the cache (and with the backfill
write succeeding, `set_fails = false`): if the relational store contains a
record `(code, u)`, redirect yields `301` with `Location u` and the cache
subsequently contains `u` under key `short_url:{code}`; if the store has no
such record, resolve fails with `NotFound` (HTTP 404). -/
theorem resolve_cache_miss (c : Cache) (db : List (String × String)) (short_code : String)
    (hmiss : cache_get c short_code = none) :
    (∀ u, dbFind db short_code = some u →
      redirect_to_url c db false short_code
          = Except.ok (301, u, Source.db, cache_set c short_code u none) ∧
        cache_get (cache_set c short_code u none) short_code = some u) ∧
    (dbFind db short_code = none →
      redirect_to_url c db false short_code = Except.error HttpError.notFound) := by
  constructor
  · intro u hdb
    refine ⟨?_, cache_get_after_set c short_code u none⟩
    simp [redirect_to_url, hmiss, hdb]
  · intro hdb
    simp [redirect_to_url, hmiss, hdb]

/-- Witness for claim C7's theorem: empty cache, store row
`("abc", "https://example.com/c")`. -/
theorem resolve_cache_miss_witness :
    cache_get (Cache.mk []) "abc" = none ∧
    (redirect_to_url (Cache.mk []) [("abc", "https://example.com/c")] false "abc"
        = Except.ok (301, "https://example.com/c", Source.db,
            cache_set (Cache.mk []) "abc" "https://example.com/c" none) ∧
      cache_get (cache_set (Cache.mk []) "abc" "https://example.com/c" none) "abc"
        = some "https://example.com/c") :=
  ⟨rfl, (resolve_cache_miss (Cache.mk []) [("abc", "https://example.com/c")] "abc" rfl).1
    "https://example.com/c" rfl⟩

/-- Counterexample to claim C4 as stated: cache miss, store contains
`("abc", "https://example.com/c")`, and the backfill `SETEX` raises — the
handler does NOT return `(url, db)` with status 301; the exception
propagates out of `resolve` (there is no `try`/`except` around
`await cache.set(...)` at `endpoints.py` line 154, nor inside
`RedisCache.set`). -/
theorem backfill_failure_not_swallowed :
    dbFind [("abc", "https://example.com/c")] "abc" = some "https://example.com/c" ∧
    cache_get (Cache.mk []) "abc" = none ∧
    redirect_to_url (Cache.mk []) [("abc", "https://example.com/c")] true "abc"
      = Except.error HttpError.cacheError :=
  ⟨rfl, rfl, rfl⟩

/-- Claim C4 as amended: in the cache-miss path a failure of the cache
backfill write is NOT swallowed — it propagates and the request fails
instead of redirecting; `resolve` returns `(url, db)` with status 301 only
when the backfill write succeeds. -/
theorem resolve_backfill_failure_propagates (c : Cache) (db : List (String × String))
    (short_code u : String)
    (hmiss : cache_get c short_code = none) (hdb : dbFind db short_code = some u) :
    redirect_to_url c db true short_code = Except.error HttpError.cacheError ∧
    redirect_to_url c db false short_code
      = Except.ok (301, u, Source.db, cache_set c short_code u none) := by
  constructor
  · simp [redirect_to_url, hmiss, hdb]
  · simp [redirect_to_url, hmiss, hdb]

/-- Witness for claim C4's amended theorem. -/
theorem resolve_backfill_failure_witness :
    redirect_to_url (Cache.mk []) [("abc", "https://example.com/c")] true "abc"
        = Except.error HttpError.cacheError ∧
      redirect_to_url (Cache.mk []) [("abc", "https://example.com/c")] false "abc"
        = Except.ok (301, "https://example.com/c", Source.db,
            cache_set (Cache.mk []) "abc" "https://example.com/c" none) :=
  resolve_backfill_failure_propagates (Cache.mk []) [("abc", "https://example.com/c")]
    "abc" "https://example.com/c" rfl rfl

/-! ## Analytics event publisher (`app/core/analytics.py`, lines 44-95)

`publish_click_event` builds the event payload from request metadata and
hands it to the RabbitMQ exchange; the entire body sits in a
`try`/`except Exception` that logs at warning level and returns normally.
The serialisation-and-publish step is injected as a function `pub` so that
any exception it raises can be modelled. -/

/-- The click-event payload (`analytics.py` lines 68-75). -/
structure ClickEvent where
  short_code : String
  timestamp : String
  user_agent : String
  ip_address : String
  referrer : String
  original_url : String
deriving DecidableEq, Repr

/-- Request metadata read from the FastAPI `Request` (headers, client
address) plus the `datetime.utcnow().isoformat() + "Z"` timestamp. -/
structure RequestMeta where
  user_agent : String
  ip_address : String
  referrer : String
  now : String
deriving DecidableEq, Repr

/-- `AnalyticsPublisher.publish_click_event` (`analytics.py` lines 44-95):
builds the event and runs the publish step `pub`; any `Exception` from it
is caught, logged, and the method returns normally. -/
def publish_click_event (pub : ClickEvent → Except String Unit)
    (short_code : String) (meta : RequestMeta) (original_url : String) :
    Except String Unit :=
  let event : ClickEvent :=
    { short_code := short_code, timestamp := meta.now, user_agent := meta.user_agent,
      ip_address := meta.ip_address, referrer := meta.referrer,
      original_url := original_url }
  match pub event with
  | Except.ok _ => Except.ok ()
  | Except.error _ => Except.ok ()

/-- The redirect handler together with its fire-and-forget analytics task
(`endpoints.py` lines 127-163): the publish result is produced by a
detached task and never inspected by the handler. -/
def redirect_with_analytics (c : Cache) (db : List (String × String)) (set_fails : Bool)
    (short_code : String) (meta : RequestMeta)
    (pub : ClickEvent → Except String Unit) :
    Except HttpError (Nat × String × Source × Cache) × Except String Unit :=
  match redirect_to_url c db set_fails short_code with
  | Except.ok (status, url, src, c') =>
    (Except.ok (status, url, src, c'), publish_click_event pub short_code meta url)
  | Except.error e => (Except.error e, Except.ok ())

/-- Claim C8: any exception thrown inside the click-event publish is caught
and the publish returns normally, so the HTTP status and Location of the
redirect are identical to a run in which the publish succeeds: the
handler's result does not depend on the publish step at all. -/
theorem publish_failure_isolated (c : Cache) (db : List (String × String))
    (set_fails : Bool) (short_code : String) (meta : RequestMeta)
    (original_url : String) (pub₁ pub₂ : ClickEvent → Except String Unit) :
    publish_click_event pub₁ short_code meta original_url = Except.ok () ∧
    (redirect_with_analytics c db set_fails short_code meta pub₁).1
      = (redirect_with_analytics c db set_fails short_code meta pub₂).1 := by
  constructor
  · simp only [publish_click_event]
    split <;> rfl
  · simp only [redirect_with_analytics]
    cases hx : redirect_to_url c db set_fails short_code with
    | ok r =>
      obtain ⟨status, url, src, c'⟩ := r
      rfl
    | error e => rfl

/-! ## Event consumer (`event-consumer/consumer.py`, lines 74-152)

`process_message` opens `async with message.process()`, which acknowledges
the message iff the scope exits without error.  The JSON decoding of the
payload and the ISO-8601 timestamp parsing are library calls, modelled
abstractly: a payload is either `invalid` (raises `json.JSONDecodeError`)
or an object given by its key-value pairs; `parseTs` models
`datetime.fromisoformat` + `strftime` (`none` = raises `ValueError`).
`exec_ok` models whether the ClickHouse `INSERT` succeeds. -/

/-- First value under `key` in a decoded JSON object (Python `dict`
lookup; `assocFind fields k = none` models a missing key). -/
def assocFind : List (String × String) → String → Option String
  | [], _ => none
  | (k, v) :: rest, key => if k = key then some v else assocFind rest key

/-- A consumed message body, as seen by `json.loads(message.body.decode())`. -/
inductive Body
  | invalid                                 -- raises `json.JSONDecodeError`
  | json (fields : List (String × String))  -- decodes to an object
deriving DecidableEq, Repr

/-- The row inserted into ClickHouse (`INSERT INTO click_events` at
`consumer.py` lines 104-109). -/
structure EventRow where
  short_code : String
  timestamp : String
  user_agent : String
  ip_address : String
  referrer : String
  original_url : String
deriving DecidableEq, Repr

/-- Exceptions that `insert_click_event` can raise (it logs and
re-raises every exception, lines 116-119). -/
inductive ConsumerError
  | keyError      -- `event["timestamp"]` with the key missing
  | valueError    -- `datetime.fromisoformat` failed
  | executeError  -- the ClickHouse INSERT failed
deriving DecidableEq, Repr

/-- `insert_click_event` (`consumer.py` lines 74-119): reads
`event["timestamp"]` (KeyError if absent), parses it, reads the remaining
fields with `event.get(k, "")` (defaulting to the empty string), and
executes the INSERT. -/
def insert_click_event (parseTs : String → Option String) (exec_ok : Bool)
    (event : List (String × String)) : Except ConsumerError EventRow :=
  match assocFind event "timestamp" with
  | none => Except.error ConsumerError.keyError
  | some raw =>
    match parseTs raw with
    | none => Except.error ConsumerError.valueError
    | some ts =>
      if exec_ok then
        Except.ok
          { short_code := (assocFind event "short_code").getD ""
            timestamp := ts
            user_agent := (assocFind event "user_agent").getD ""
            ip_address := (assocFind event "ip_address").getD ""
            referrer := (assocFind event "referrer").getD ""
            original_url := (assocFind event "original_url").getD "" }
      else Except.error ConsumerError.executeError

/-- Outcome of the `async with message.process()` scope: `acked` iff the
scope exits without error. -/
inductive Ack
  | acked
  | nacked
deriving DecidableEq, Repr

/-- `process_message` (`consumer.py` lines 122-152).  A
`json.JSONDecodeError` is caught by its dedicated handler, which logs and
does NOT re-raise, so the scope exits cleanly and the message is
acknowledged; every other exception is re-raised by the generic handler,
the scope fails and the message is not acknowledged. -/
def process_message (parseTs : String → Option String) (exec_ok : Bool) (body : Body) :
    Ack × Option EventRow :=
  match body with
  | Body.invalid => (Ack.acked, none)
  | Body.json fields =>
    match insert_click_event parseTs exec_ok fields with
    | Except.ok row => (Ack.acked, some row)
    | Except.error _ => (Ack.nacked, none)

/-- Claim C2 is violated by the code: a payload that fails JSON decoding is
ACKNOWLEDGED, not returned to the queue — the `except json.JSONDecodeError`
handler at `consumer.py` lines 144-147 only logs and does not re-raise, so
the `message.process()` scope exits without error and acks the message
(despite the adjacent comment claiming it will be rejected). -/
theorem decode_failure_is_acked (parseTs : String → Option String) (exec_ok : Bool) :
    process_message parseTs exec_ok Body.invalid = (Ack.acked, none) := rfl

/-- Fate of a consumed message after its processing scope closes. -/
inductive MsgFate
  | acked     -- basic.ack: the message is removed from the queue
  | requeued  -- basic.reject(requeue=True): the message returns to the queue
  | dropped   -- basic.reject(requeue=False) with no dead-letter queue: discarded
deriving DecidableEq, Repr

/-- `message.process()` at `consumer.py` line 133 is called with no
arguments, so the library default `requeue=False` governs the reject issued
when the scope fails. -/
def PROCESS_REQUEUE : Bool := false

/-- Disposition of a message handled by `process_message`: an error-free
scope acks; a failing scope rejects with `requeue = PROCESS_REQUEUE`, and
the queue — declared at `consumer.py` lines 205-208 with no dead-letter
configuration — drops a reject whose requeue flag is false. -/
def process_message_fate (parseTs : String → Option String) (exec_ok : Bool)
    (body : Body) : MsgFate :=
  match (process_message parseTs exec_ok body).1 with
  | Ack.acked => MsgFate.acked
  | Ack.nacked => if PROCESS_REQUEUE then MsgFate.requeued else MsgFate.dropped

/-- Counterexample to claim C10 as stated: a JSON message lacking the
`"timestamp"` key does fail the scope and is not acknowledged, but it is
NOT redelivered — `message.process()` runs with its default
`requeue=False` and the queue has no dead-letter configuration, so the
reject drops the message. -/
theorem consumer_missing_timestamp_not_redelivered :
    (process_message (fun s => some s) true (Body.json [("short_code", "abc")])).1
        = Ack.nacked ∧
      process_message_fate (fun s => some s) true (Body.json [("short_code", "abc")])
        = MsgFate.dropped ∧
      process_message_fate (fun s => some s) true (Body.json [("short_code", "abc")])
        ≠ MsgFate.requeued :=
  ⟨rfl, rfl, by decide⟩

/-- Claim C10 as amended: for a message decoding to a JSON object, each
missing field among `short_code`, `user_agent`, `ip_address`, `referrer`,
`original_url` defaults to the empty string in the inserted row, whereas a
message lacking the `"timestamp"` key makes `insert_click_event` raise
`KeyError`, so the processing scope fails and the message is not
acknowledged: it is rejected with `requeue=False` and dropped, not
redelivered. -/
theorem consumer_defaults_and_missing_timestamp_dropped
    (parseTs : String → Option String) (exec_ok : Bool) (fields : List (String × String)) :
    (assocFind fields "timestamp" = none →
      insert_click_event parseTs exec_ok fields = Except.error ConsumerError.keyError ∧
        (process_message parseTs exec_ok (Body.json fields)).1 = Ack.nacked ∧
        process_message_fate parseTs exec_ok (Body.json fields) = MsgFate.dropped) ∧
    (∀ raw ts row, assocFind fields "timestamp" = some raw → parseTs raw = some ts →
      insert_click_event parseTs exec_ok fields = Except.ok row →
      (assocFind fields "short_code" = none → row.short_code = "") ∧
        (assocFind fields "user_agent" = none → row.user_agent = "") ∧
        (assocFind fields "ip_address" = none → row.ip_address = "") ∧
        (assocFind fields "referrer" = none → row.referrer = "") ∧
        (assocFind fields "original_url" = none → row.original_url = "")) := by
  constructor
  · intro hts
    have hins : insert_click_event parseTs exec_ok fields
        = Except.error ConsumerError.keyError := by
      simp [insert_click_event, hts]
    have hack : (process_message parseTs exec_ok (Body.json fields)).1 = Ack.nacked := by
      simp [process_message, hins]
    refine ⟨hins, hack, ?_⟩
    simp [process_message_fate, hack, PROCESS_REQUEUE]
  · intro raw ts row hraw hts hrow
    simp only [insert_click_event, hraw, hts] at hrow
    by_cases hex : exec_ok
    · rw [if_pos hex] at hrow
      simp only [Except.ok.injEq] at hrow
      subst hrow
      refine ⟨?_, ?_, ?_, ?_, ?_⟩ <;> intro hnone <;> simp [hnone]
    · rw [if_neg hex] at hrow
      exact absurd hrow (by simp)

/-- Witness for claim C10's amended theorem: a decoded object with only a
`short_code` key lacks `"timestamp"`; the scope fails, the message is not
acked and its fate is `dropped`. -/
theorem consumer_missing_timestamp_dropped_witness :
    insert_click_event (fun s => some s) true [("short_code", "abc")]
        = Except.error ConsumerError.keyError ∧
      (process_message (fun s => some s) true (Body.json [("short_code", "abc")])).1
        = Ack.nacked ∧
      process_message_fate (fun s => some s) true (Body.json [("short_code", "abc")])
        = MsgFate.dropped :=
  (consumer_defaults_and_missing_timestamp_dropped (fun s => some s) true
    [("short_code", "abc")]).1 rfl

/-! ## Worker-ID lease renewal (`app/core/worker_id.py`, lines 102-135)

One iteration of the `while True` loop in `_renew_lease_loop`, driven by
the two Redis replies it can observe: `expire_ok` is the boolean returned
by `EXPIRE key lease_ttl`, `setnx_ok` the boolean returned by the
`SET key "leased" NX EX lease_ttl` attempted when the key was absent. -/

/-- What the process does after one renewal iteration. -/
inductive RenewOutcome
  | continue_same   -- next loop iteration, still using the same worker_id
  | reacquire_fresh -- abandon the id and run acquisition from scratch
  | shutdown        -- terminate the process
deriving DecidableEq, Repr

/-- Result of one renewal iteration. -/
structure RenewStep where
  worker_id : Nat
  outcome : RenewOutcome
  warned : Bool
deriving DecidableEq, Repr

/-- One iteration of `WorkerIDManager._renew_lease_loop` (`worker_id.py`
lines 115-129): if `EXPIRE` succeeds the loop continues; if it reports the
key absent, a warning is logged and `SET ... NX` is attempted on the SAME
slot — but its boolean result (`setnx_ok`) is discarded by the source, and
the loop continues with the same `worker_id` in every case. -/
def renew_iteration (worker_id : Nat) (expire_ok setnx_ok : Bool) : RenewStep :=
  if expire_ok then
    { worker_id := worker_id, outcome := RenewOutcome.continue_same, warned := false }
  else
    { worker_id := worker_id, outcome := RenewOutcome.continue_same, warned := true }

/-- Claim C3 is violated by the code: when the TTL extension reports the
key absent (`expire_ok = false`) and the re-acquisition `SET NX` also fails
(`setnx_ok = false`, the slot was taken by another process), the loop
neither re-acquires a fresh ID nor shuts down — it silently continues with
the same, possibly duplicated `worker_id`, because the result of the
`SET NX` at `worker_id.py` line 127 is never checked. -/
theorem renew_lease_lost_continues_silently :
    renew_iteration 7 false false
      = { worker_id := 7, outcome := RenewOutcome.continue_same, warned := true } ∧
    (renew_iteration 7 false false).outcome ≠ RenewOutcome.reacquire_fresh ∧
    (renew_iteration 7 false false).outcome ≠ RenewOutcome.shutdown := by
  refine ⟨rfl, ?_, ?_⟩ <;> decide
